import Mathlib

/-!
# liblitmus (GPUSync) user-space interface: `include/litmus.h`

A shallow embedding of the inline functions, macros and enumerations of
`include/litmus.h`, together with the properties of them that the
specification states.

Conventions of the embedding.

* C `int` arguments are `Int`, C `unsigned int` arguments are `Nat`.  None of
  the embedded inline functions does arithmetic on them, so no reduction
  modulo a word size is involved.  The time-unit macros are the exception:
  they multiply in `long long`, and the embedding reduces each product to the
  signed 64-bit range (`wrap_ll`).
* `od_openx` is only declared in the header (it is a system-call wrapper).
  Its behaviour is a parameter `impl` of the embedding: a function from the
  kernel state and the four arguments to the returned `int` and the next
  kernel state.  Every invocation is also appended to a call log, so that
  "is invoked exactly once" and "is never invoked" are statements about the
  log.
-/

namespace Litmus

/-! ## Protocol enumeration (`obj_type_t`, litmus.h:51-69) -/

/-- The enumeration `obj_type_t` of litmus.h:51-69, one constructor per
enumerator, in the order of declaration. -/
inductive obj_type_t where
  | FMLP_SEM
  | SRP_SEM
  | MPCP_SEM
  | MPCP_VS_SEM
  | DPCP_SEM
  | PCP_SEM
  | FIFO_MUTEX
  | IKGLP_SEM
  | KFMLP_SEM
  | IKGLP_SIMPLE_GPU_AFF_OBS
  | IKGLP_GPU_AFF_OBS
  | KFMLP_SIMPLE_GPU_AFF_OBS
  | KFMLP_GPU_AFF_OBS
  | PRIOQ_MUTEX
  deriving DecidableEq, Repr

/-- The integer value the header assigns to each enumerator
(`FMLP_SEM = 0`, ..., `PRIOQ_MUTEX = 13`). -/
def obj_type_t.toInt : obj_type_t → Int
  | .FMLP_SEM => 0
  | .SRP_SEM => 1
  | .MPCP_SEM => 2
  | .MPCP_VS_SEM => 3
  | .DPCP_SEM => 4
  | .PCP_SEM => 5
  | .FIFO_MUTEX => 6
  | .IKGLP_SEM => 7
  | .KFMLP_SEM => 8
  | .IKGLP_SIMPLE_GPU_AFF_OBS => 9
  | .IKGLP_GPU_AFF_OBS => 10
  | .KFMLP_SIMPLE_GPU_AFF_OBS => 11
  | .KFMLP_GPU_AFF_OBS => 12
  | .PRIOQ_MUTEX => 13

/-- The enumerators in the order in which the header declares them. -/
def obj_type_t.all : List obj_type_t :=
  [.FMLP_SEM, .SRP_SEM, .MPCP_SEM, .MPCP_VS_SEM, .DPCP_SEM, .PCP_SEM,
   .FIFO_MUTEX, .IKGLP_SEM, .KFMLP_SEM,
   .IKGLP_SIMPLE_GPU_AFF_OBS, .IKGLP_GPU_AFF_OBS,
   .KFMLP_SIMPLE_GPU_AFF_OBS, .KFMLP_GPU_AFF_OBS, .PRIOQ_MUTEX]

/-! ## Object descriptors: `od_openx`, `od_open` and the `open_*_sem` helpers -/

/-- The `void* config` argument of `od_openx`: either `0` (NULL) or the
address of a caller-side variable.  The model keeps what the pointer points
to: an `int` (`&cpu`) or an `unsigned int` (`&nr_replicas`). -/
inductive config_ptr where
  | null
  | to_int (v : Int)
  | to_uint (v : Nat)
  deriving DecidableEq, Repr

/-- The four arguments of one call `od_openx(fd, type, obj_id, config)`. -/
structure od_openx_args where
  fd : Int
  type : obj_type_t
  obj_id : Int
  config : config_ptr
  deriving DecidableEq, Repr

/-- The behaviour of the external `od_openx` (litmus.h:74, declaration only):
from the kernel state and the arguments to the returned `int` and the next
kernel state. -/
abbrev od_openx_impl (σ : Type) := σ → od_openx_args → Int × σ

/-- The state a caller of the header's functions runs in: the kernel state
and the log of all `od_openx` invocations so far, oldest first. -/
structure World (σ : Type) where
  kernel : σ
  calls : List od_openx_args

/-- One invocation of `od_openx`: runs the external behaviour on the kernel
state and records the call. -/
def od_openx {σ : Type} (impl : od_openx_impl σ) (fd : Int) (type : obj_type_t)
    (obj_id : Int) (config : config_ptr) (w : World σ) : Int × World σ :=
  let a : od_openx_args := ⟨fd, type, obj_id, config⟩
  let r := impl w.kernel a
  (r.1, ⟨r.2, w.calls ++ [a]⟩)

/-- The inline `od_open` of litmus.h:77-80:
`return od_openx(fd, type, obj_id, 0);` -/
def od_open {σ : Type} (impl : od_openx_impl σ) (fd : Int) (type : obj_type_t)
    (obj_id : Int) (w : World σ) : Int × World σ :=
  od_openx impl fd type obj_id .null w

/-- The inline `open_fmlp_sem` of litmus.h:163-166. -/
def open_fmlp_sem {σ : Type} (impl : od_openx_impl σ) (fd name : Int)
    (w : World σ) : Int × World σ :=
  od_open impl fd .FMLP_SEM name w

/-- The inline `open_kfmlp_sem` of litmus.h:168-173:
`if (!nr_replicas) return -1; return od_openx(fd, KFMLP_SEM, name, &nr_replicas);` -/
def open_kfmlp_sem {σ : Type} (impl : od_openx_impl σ) (fd name : Int)
    (nr_replicas : Nat) (w : World σ) : Int × World σ :=
  if nr_replicas = 0 then
    (-1, w)
  else
    od_openx impl fd .KFMLP_SEM name (.to_uint nr_replicas) w

/-- The inline `open_srp_sem` of litmus.h:175-178. -/
def open_srp_sem {σ : Type} (impl : od_openx_impl σ) (fd name : Int)
    (w : World σ) : Int × World σ :=
  od_open impl fd .SRP_SEM name w

/-- The inline `open_pcp_sem` of litmus.h:180-183:
`return od_openx(fd, PCP_SEM, name, &cpu);` -/
def open_pcp_sem {σ : Type} (impl : od_openx_impl σ) (fd name cpu : Int)
    (w : World σ) : Int × World σ :=
  od_openx impl fd .PCP_SEM name (.to_int cpu) w

/-- The inline `open_mpcp_sem` of litmus.h:185-188. -/
def open_mpcp_sem {σ : Type} (impl : od_openx_impl σ) (fd name : Int)
    (w : World σ) : Int × World σ :=
  od_open impl fd .MPCP_SEM name w

/-- The inline `open_dpcp_sem` of litmus.h:190-193:
`return od_openx(fd, DPCP_SEM, name, &cpu);` -/
def open_dpcp_sem {σ : Type} (impl : od_openx_impl σ) (fd name cpu : Int)
    (w : World σ) : Int × World σ :=
  od_openx impl fd .DPCP_SEM name (.to_int cpu) w

/-- The inline `open_fifo_sem` of litmus.h:195-198. -/
def open_fifo_sem {σ : Type} (impl : od_openx_impl σ) (fd name : Int)
    (w : World σ) : Int × World σ :=
  od_open impl fd .FIFO_MUTEX name w

/-- The inline `open_prioq_sem` of litmus.h:200-203. -/
def open_prioq_sem {σ : Type} (impl : od_openx_impl σ) (fd name : Int)
    (w : World σ) : Int × World σ :=
  od_open impl fd .PRIOQ_MUTEX name w

/-- A sample behaviour of `od_openx` used to evaluate the helpers on concrete
inputs: the kernel state counts the objects opened so far, a negative `fd`
fails with `-1`, and otherwise the next free descriptor is returned. -/
def sample_od_openx : od_openx_impl Nat :=
  fun k a => if a.fd < 0 then (-1, k) else ((k : Int), k + 1)

/-- An initial world for `sample_od_openx`: nothing opened, nothing called. -/
def sample_world : World Nat := ⟨0, []⟩

/-! ## Time-unit conversion macros (litmus.h:42-48)

Each macro multiplies its argument by a `long long` constant, so the product
is computed in signed 64-bit arithmetic.  The argument is the value of the
macro's operand after conversion to `long long`; the result is the product
reduced to the signed 64-bit range, that is, with two's-complement wrap-around
where the exact product does not fit. -/

/-- Smallest value of a signed 64-bit `long long`. -/
def LLONG_MIN : Int := -9223372036854775808

/-- Largest value of a signed 64-bit `long long`. -/
def LLONG_MAX : Int := 9223372036854775807

/-- Reduction of an integer to the signed 64-bit value a two's-complement
`long long` holds after wrap-around. -/
def wrap_ll (v : Int) : Int := (v + 9223372036854775808) % 18446744073709551616 - 9223372036854775808

/-- The macro `s2ns(s)`, `((s)*1000000000LL)`: a `long long` product. -/
def s2ns (s : Int) : Int := wrap_ll (s * 1000000000)

/-- The macro `s2us(s)`, `((s)*1000000LL)`: a `long long` product. -/
def s2us (s : Int) : Int := wrap_ll (s * 1000000)

/-- The macro `s2ms(s)`, `((s)*1000LL)`: a `long long` product. -/
def s2ms (s : Int) : Int := wrap_ll (s * 1000)

/-- The macro `ms2ns(ms)`, `((ms)*1000000LL)`: a `long long` product. -/
def ms2ns (ms : Int) : Int := wrap_ll (ms * 1000000)

/-- The macro `ms2us(ms)`, `((ms)*1000LL)`: a `long long` product. -/
def ms2us (ms : Int) : Int := wrap_ll (ms * 1000)

/-- The macro `us2ns(us)`, `((us)*1000LL)`: a `long long` product. -/
def us2ns (us : Int) : Int := wrap_ll (us * 1000)

/-! ## The C++ budget-signal bridge (`litmus::throw_on_litmus_signal`) -/

/-- The mask `SIG_BUDGET_MASK` of litmus.h:323. -/
def SIG_BUDGET_MASK : Nat := 0x00000001

/-- The exception classes of namespace `litmus` (litmus.h:371-385). -/
inductive litmus_exception where
  | base
  | sigbudget
  deriving DecidableEq, Repr

/-- The signal state of a thread: the state the external
`unblock_litmus_signals` acts on, and the log of the masks it was called
with, oldest first. -/
structure SigWorld (σ : Type) where
  sigstate : σ
  unblocked : List Nat

/-- One invocation of the external `unblock_litmus_signals(mask)`
(litmus.h:321, declaration only); `impl` is its effect on the signal state. -/
def unblock_litmus_signals {σ : Type} (impl : σ → Nat → σ) (litmus_sig_mask : Nat)
    (w : SigWorld σ) : SigWorld σ :=
  ⟨impl w.sigstate litmus_sig_mask, w.unblocked ++ [litmus_sig_mask]⟩

/-- The function `throw_on_litmus_signal` of litmus.h:388-403.  `SIG_BUDGET` comes
from the kernel header `litmus/signal.h` and is a parameter.  A thrown
exception is `Except.error`, a normal return is `Except.ok ()`; the second
component is the signal state at the throw or at the return. -/
def throw_on_litmus_signal {σ : Type} (impl : σ → Nat → σ) (SIG_BUDGET : Int)
    (signum : Int) (w : SigWorld σ) : Except litmus_exception Unit × SigWorld σ :=
  if SIG_BUDGET = signum then
    let w1 := unblock_litmus_signals impl SIG_BUDGET_MASK w
    (.error .sigbudget, w1)
  else
    (.ok (), w)

/-- A sample effect of `unblock_litmus_signals`: the signal state is the set
of blocked masks as a bit field, and unblocking clears the given bits. -/
def sample_unblock : Nat → Nat → Nat :=
  fun blocked mask => blocked - (blocked &&& mask)

/-! ## `LITMUS_TRY` / `LITMUS_CATCH` / `END_LITMUS_TRY` (litmus.h:328-345) -/

/-- A frame `litmus_sigjmp_t` (litmus.h:289-293).  `env` identifies the saved
jump context; the `prev` link is the tail of the list the frame is stored
in. -/
structure litmus_sigjmp_t where
  env : Nat
  deriving DecidableEq, Repr

/-- The state of a thread running a `LITMUS_TRY` block: the per-thread list of
frames (top first) and the rest of the program state. -/
structure Thread (α : Type) where
  sigjmp_stack : List litmus_sigjmp_t
  user : α

/-- Modelled from the spec: `push_sigjmp` (litmus.h:295, declaration only) as
a push on the per-thread list of `litmus_sigjmp_t` frames. -/
def push_sigjmp (buf : litmus_sigjmp_t) (stack : List litmus_sigjmp_t) :
    List litmus_sigjmp_t :=
  buf :: stack

/-- Modelled from the spec: `pop_sigjmp` (litmus.h:296, declaration only) as a
pop on the per-thread list of frames: the top frame (NULL when the list is
empty) and the remaining list. -/
def pop_sigjmp (stack : List litmus_sigjmp_t) :
    Option litmus_sigjmp_t × List litmus_sigjmp_t :=
  (stack.head?, stack.tail)

/-- Which block of the if/else-if chain of a `LITMUS_TRY` statement ran. -/
inductive try_branch where
  | body
  | catch_block
  | neither
  deriving DecidableEq, Repr

/-- The statements of `LITMUS_TRY` up to the call of `sigsetjmp`
(litmus.h:333-335): declare the frame and `push_sigjmp(&lit_env)`. -/
def litmus_try_enter {α : Type} (lit_env : litmus_sigjmp_t) (t : Thread α) : Thread α :=
  { t with sigjmp_stack := push_sigjmp lit_env t.sigjmp_stack }

/-- The if/else-if chain that `LITMUS_TRY`, `LITMUS_CATCH(x)` and
`END_LITMUS_TRY` expand to (litmus.h:338-345), entered when `sigsetjmp` returns
`sigsetjmp_ret`:
`if (ret == 0) { body } else if (ret == (x)) { handler }`.
`body` and `handler` act on the program state only. -/
def litmus_try_dispatch {α : Type} (sigsetjmp_ret x : Int) (body handler : α → α)
    (t : Thread α) : try_branch × Thread α :=
  if sigsetjmp_ret = 0 then
    (.body, { t with user := body t.user })
  else if sigsetjmp_ret = x then
    (.catch_block, { t with user := handler t.user })
  else
    (.neither, t)

/-- A whole statement `LITMUS_TRY { body } LITMUS_CATCH(x) { handler }
END_LITMUS_TRY` on the normal path, on which no signal arrives: the frame is
pushed, the direct call of `sigsetjmp` returns `0`, the chain is run, and
`END_LITMUS_TRY` only closes the braces. -/
def litmus_try_block {α : Type} (lit_env : litmus_sigjmp_t) (x : Int)
    (body handler : α → α) (t : Thread α) : try_branch × Thread α :=
  litmus_try_dispatch 0 x body handler (litmus_try_enter lit_env t)

/-! ## GPU token-lock layout validation (`open_gpusync_token_lock`) -/

/-- The two "unlimited" sentinel values `IKGLP_UNLIMITED_IN_FIFOS` and
`IKGLP_UNLIMITED_FIFO_LEN` that litmus.h:217-243 names.  They are defined in
the kernel header `litmus/rt_param.h`; their values are parameters. -/
structure ikglp_sentinels where
  IKGLP_UNLIMITED_IN_FIFOS : Nat
  IKGLP_UNLIMITED_FIFO_LEN : Nat
  deriving DecidableEq, Repr

/-- The invariant of the GPU resource layout that a rejected configuration
violates. -/
inductive ConfigConstraintViolation where
  | rho_not_positive
  | num_gpus_not_positive
  | fifo_bound_exceeded
  deriving DecidableEq, Repr

/-- Modelled from the spec: the parameter check of `open_gpusync_token_lock`
(litmus.h:248-252 declares the function, its body is not in the header).  The
configuration is rejected when `rho = 0`, when `num_gpus = 0`, and when
`max_in_fifos > max_fifo_len * rho` unless `max_in_fifos` and `max_fifo_len`
are both their "unlimited" sentinels; `gpu_offset` and
`enable_affinity_heuristics` are not constrained. -/
def gpusync_token_lock_check (U : ikglp_sentinels)
    (num_gpus rho max_in_fifos max_fifo_len : Nat) :
    Except ConfigConstraintViolation Unit :=
  if rho = 0 then
    .error .rho_not_positive
  else if num_gpus = 0 then
    .error .num_gpus_not_positive
  else if max_in_fifos = U.IKGLP_UNLIMITED_IN_FIFOS ∧
      max_fifo_len = U.IKGLP_UNLIMITED_FIFO_LEN then
    .ok ()
  else if max_in_fifos > max_fifo_len * rho then
    .error .fifo_bound_exceeded
  else
    .ok ()

/-- The configuration passes the parameter check. -/
def gpusync_accepted (U : ikglp_sentinels)
    (num_gpus rho max_in_fifos max_fifo_len : Nat) : Bool :=
  match gpusync_token_lock_check U num_gpus rho max_in_fifos max_fifo_len with
  | .ok _ => true
  | .error _ => false

/-- Sentinels equal to `~0u` on a 32-bit `unsigned int`, used to evaluate the
check on concrete inputs. -/
def sample_sentinels : ikglp_sentinels := ⟨4294967295, 4294967295⟩

/-! ## Protocol registry (`lock_protocol_for_name`, `name_for_lock_protocol`) -/

/-- Modelled from the spec: the static table of the protocol registry, which
pairs every protocol of the enumeration with its canonical name (the names of
the interface's protocol list).  litmus.h:71-72 only declares the two lookup
functions; the table and their bodies are not in the header. -/
def protocol_table : List (String × obj_type_t) :=
  [("FMLP", .FMLP_SEM), ("SRP", .SRP_SEM), ("MPCP", .MPCP_SEM),
   ("MPCP_VS", .MPCP_VS_SEM), ("DPCP", .DPCP_SEM), ("PCP", .PCP_SEM),
   ("FIFO_MUTEX", .FIFO_MUTEX), ("IKGLP", .IKGLP_SEM), ("KFMLP", .KFMLP_SEM),
   ("IKGLP_SIMPLE_GPU_AFF", .IKGLP_SIMPLE_GPU_AFF_OBS),
   ("IKGLP_GPU_AFF", .IKGLP_GPU_AFF_OBS),
   ("KFMLP_SIMPLE_GPU_AFF", .KFMLP_SIMPLE_GPU_AFF_OBS),
   ("KFMLP_GPU_AFF", .KFMLP_GPU_AFF_OBS), ("PRIOQ_MUTEX", .PRIOQ_MUTEX)]

/-- Modelled from the spec: `lock_protocol_for_name(name)`, the identifier of
the first table entry with that name, or `none` for "not found". -/
def lock_protocol_for_name (name : String) : Option Int :=
  (protocol_table.find? (fun e => e.1 = name)).map (fun e => e.2.toInt)

/-- Modelled from the spec: `name_for_lock_protocol(id)`, the name of the first
table entry with that identifier, or `none` for "not found". -/
def name_for_lock_protocol (id : Int) : Option String :=
  (protocol_table.find? (fun e => e.2.toInt = id)).map (fun e => e.1)

/-- The canonical name of a protocol: the name of its table entry. -/
def obj_type_t.name : obj_type_t → String
  | .FMLP_SEM => "FMLP"
  | .SRP_SEM => "SRP"
  | .MPCP_SEM => "MPCP"
  | .MPCP_VS_SEM => "MPCP_VS"
  | .DPCP_SEM => "DPCP"
  | .PCP_SEM => "PCP"
  | .FIFO_MUTEX => "FIFO_MUTEX"
  | .IKGLP_SEM => "IKGLP"
  | .KFMLP_SEM => "KFMLP"
  | .IKGLP_SIMPLE_GPU_AFF_OBS => "IKGLP_SIMPLE_GPU_AFF"
  | .IKGLP_GPU_AFF_OBS => "IKGLP_GPU_AFF"
  | .KFMLP_SIMPLE_GPU_AFF_OBS => "KFMLP_SIMPLE_GPU_AFF"
  | .KFMLP_GPU_AFF_OBS => "KFMLP_GPU_AFF"
  | .PRIOQ_MUTEX => "PRIOQ_MUTEX"

/-! # Properties -/

/-! ## Shared lemmas -/

/-- One invocation of `od_openx` returns the external result, leaves the
kernel in the external next state and adds exactly one entry to the log. -/
theorem od_openx_once {σ : Type} (impl : od_openx_impl σ) (fd : Int) (type : obj_type_t)
    (obj_id : Int) (config : config_ptr) (w : World σ) :
    (od_openx impl fd type obj_id config w).1 = (impl w.kernel ⟨fd, type, obj_id, config⟩).1 ∧
    (od_openx impl fd type obj_id config w).2.kernel
      = (impl w.kernel ⟨fd, type, obj_id, config⟩).2 ∧
    (od_openx impl fd type obj_id config w).2.calls
      = w.calls ++ [⟨fd, type, obj_id, config⟩] :=
  ⟨rfl, rfl, rfl⟩

/-! ## Object descriptors -/

/-- C1: `open_kfmlp_sem(fd, name, nr_replicas)` returns `-1` without invoking
`od_openx` (the world, call log included, is unchanged) when
`nr_replicas = 0`; when `nr_replicas > 0` it invokes `od_openx` exactly once,
with the same `fd`, protocol `KFMLP_SEM` (whose identifier is 8), object id
`name` and a config holding exactly `nr_replicas`, and returns its result
unchanged. -/
theorem open_kfmlp_sem_contract {σ : Type} (impl : od_openx_impl σ) (fd name : Int)
    (nr_replicas : Nat) (w : World σ) :
    (nr_replicas = 0 → open_kfmlp_sem impl fd name nr_replicas w = (-1, w)) ∧
    (0 < nr_replicas →
      open_kfmlp_sem impl fd name nr_replicas w
        = od_openx impl fd .KFMLP_SEM name (.to_uint nr_replicas) w ∧
      (open_kfmlp_sem impl fd name nr_replicas w).1
        = (impl w.kernel ⟨fd, .KFMLP_SEM, name, .to_uint nr_replicas⟩).1 ∧
      (open_kfmlp_sem impl fd name nr_replicas w).2.calls
        = w.calls ++ [⟨fd, .KFMLP_SEM, name, .to_uint nr_replicas⟩]) ∧
    obj_type_t.toInt .KFMLP_SEM = 8 := by
  refine ⟨?_, ?_, rfl⟩
  · intro h
    simp [open_kfmlp_sem, h]
  · intro h
    have h0 : nr_replicas ≠ 0 := Nat.pos_iff_ne_zero.mp h
    simp [open_kfmlp_sem, h0, od_openx]

/-- Evaluation of C1 on the sample kernel: zero replicas give `-1` and an
untouched world, two replicas give the descriptor of the single logged call. -/
theorem open_kfmlp_sem_contract_witness :
    ((0 : Nat) = 0 ∧ open_kfmlp_sem sample_od_openx 3 7 0 sample_world = (-1, sample_world)) ∧
    (0 < 2 ∧ (open_kfmlp_sem sample_od_openx 3 7 2 sample_world).1 = 0 ∧
      (open_kfmlp_sem sample_od_openx 3 7 2 sample_world).2.calls
        = [⟨3, .KFMLP_SEM, 7, .to_uint 2⟩]) :=
  ⟨⟨rfl, (open_kfmlp_sem_contract sample_od_openx 3 7 0 sample_world).1 rfl⟩,
   ⟨by decide,
    ((open_kfmlp_sem_contract sample_od_openx 3 7 2 sample_world).2.1 (by decide)).2⟩⟩

/-- C3: `od_open(fd, type, obj_id)` is `od_openx(fd, type, obj_id, NULL)`: it
returns the external result for exactly those arguments and logs exactly one
invocation, with `fd`, `type` and `obj_id` passed through unchanged and a null
config. -/
theorem od_open_is_od_openx_null {σ : Type} (impl : od_openx_impl σ) (fd : Int)
    (type : obj_type_t) (obj_id : Int) (w : World σ) :
    od_open impl fd type obj_id w = od_openx impl fd type obj_id .null w ∧
    (od_open impl fd type obj_id w).1 = (impl w.kernel ⟨fd, type, obj_id, .null⟩).1 ∧
    (od_open impl fd type obj_id w).2.kernel = (impl w.kernel ⟨fd, type, obj_id, .null⟩).2 ∧
    (od_open impl fd type obj_id w).2.calls = w.calls ++ [⟨fd, type, obj_id, .null⟩] :=
  ⟨rfl, rfl, rfl, rfl⟩

/-- C4: every inline open helper forwards to one `od_openx` call with the same
`fd` and object id and the protocol of its own name; `open_pcp_sem` and
`open_dpcp_sem` pass a config holding `cpu`, the five others pass a null
config; each returns the result of that call unchanged (and the call is the
only one logged). -/
theorem open_helpers_forward {σ : Type} (impl : od_openx_impl σ) (fd name cpu : Int)
    (w : World σ) :
    open_pcp_sem impl fd name cpu w = od_openx impl fd .PCP_SEM name (.to_int cpu) w ∧
    open_dpcp_sem impl fd name cpu w = od_openx impl fd .DPCP_SEM name (.to_int cpu) w ∧
    open_fmlp_sem impl fd name w = od_openx impl fd .FMLP_SEM name .null w ∧
    open_srp_sem impl fd name w = od_openx impl fd .SRP_SEM name .null w ∧
    open_mpcp_sem impl fd name w = od_openx impl fd .MPCP_SEM name .null w ∧
    open_fifo_sem impl fd name w = od_openx impl fd .FIFO_MUTEX name .null w ∧
    open_prioq_sem impl fd name w = od_openx impl fd .PRIOQ_MUTEX name .null w ∧
    (∀ (type : obj_type_t) (config : config_ptr),
      (od_openx impl fd type name config w).1 = (impl w.kernel ⟨fd, type, name, config⟩).1 ∧
      (od_openx impl fd type name config w).2.calls = w.calls ++ [⟨fd, type, name, config⟩]) :=
  ⟨rfl, rfl, rfl, rfl, rfl, rfl, rfl, fun _ _ => ⟨rfl, rfl⟩⟩

/-! ## Protocol enumeration -/

/-- C5: `obj_type_t` consists of exactly the 14 listed protocols, in the
listed order; their identifiers are, in that order, 0..13, hence pairwise
distinct (the map to identifiers is injective), every identifier lies in
0..13, and every integer in 0..13 is the identifier of exactly one
protocol. -/
theorem obj_type_t_identifiers :
    (∀ t : obj_type_t, t ∈ obj_type_t.all) ∧
    obj_type_t.all.length = 14 ∧
    obj_type_t.all.Nodup ∧
    obj_type_t.all.map obj_type_t.toInt = [0, 1, 2, 3, 4, 5, 6, 7, 8, 9, 10, 11, 12, 13] ∧
    Function.Injective obj_type_t.toInt ∧
    (∀ t : obj_type_t, ∃ i : Fin 14, t.toInt = (i.val : Int)) ∧
    (∀ i : Fin 14, ∃! t : obj_type_t, t.toInt = (i.val : Int)) := by
  have hinj : Function.Injective obj_type_t.toInt := by
    intro a b h
    cases a <;> cases b <;> first | rfl | (simp [obj_type_t.toInt] at h)
  refine ⟨?_, rfl, by decide, rfl, hinj, ?_, ?_⟩
  · intro t
    cases t <;> simp [obj_type_t.all]
  · intro t
    cases t
    exacts [⟨0, rfl⟩, ⟨1, rfl⟩, ⟨2, rfl⟩, ⟨3, rfl⟩, ⟨4, rfl⟩, ⟨5, rfl⟩, ⟨6, rfl⟩,
      ⟨7, rfl⟩, ⟨8, rfl⟩, ⟨9, rfl⟩, ⟨10, rfl⟩, ⟨11, rfl⟩, ⟨12, rfl⟩, ⟨13, rfl⟩]
  · intro i
    have hex : ∃ t : obj_type_t, t.toInt = (i.val : Int) := by
      fin_cases i
      exacts [⟨.FMLP_SEM, rfl⟩, ⟨.SRP_SEM, rfl⟩, ⟨.MPCP_SEM, rfl⟩, ⟨.MPCP_VS_SEM, rfl⟩,
        ⟨.DPCP_SEM, rfl⟩, ⟨.PCP_SEM, rfl⟩, ⟨.FIFO_MUTEX, rfl⟩, ⟨.IKGLP_SEM, rfl⟩,
        ⟨.KFMLP_SEM, rfl⟩, ⟨.IKGLP_SIMPLE_GPU_AFF_OBS, rfl⟩, ⟨.IKGLP_GPU_AFF_OBS, rfl⟩,
        ⟨.KFMLP_SIMPLE_GPU_AFF_OBS, rfl⟩, ⟨.KFMLP_GPU_AFF_OBS, rfl⟩, ⟨.PRIOQ_MUTEX, rfl⟩]
    obtain ⟨t, ht⟩ := hex
    exact ⟨t, ht, fun u hu => hinj (hu.trans ht.symm)⟩

/-! ## Budget-signal bridge -/

/-- C8: `throw_on_litmus_signal(signum)` raises `sigbudget` if and only if
`signum` equals `SIG_BUDGET`; in that case it has unblocked exactly
`SIG_BUDGET_MASK` (one call, logged before the throw); for every other
`signum` it returns normally and the signal state, log included, is
unchanged. -/
theorem throw_on_litmus_signal_contract {σ : Type} (impl : σ → Nat → σ)
    (SIG_BUDGET signum : Int) (w : SigWorld σ) :
    ((throw_on_litmus_signal impl SIG_BUDGET signum w).1 = .error .sigbudget
      ↔ signum = SIG_BUDGET) ∧
    (signum = SIG_BUDGET →
      throw_on_litmus_signal impl SIG_BUDGET signum w
        = (.error .sigbudget, unblock_litmus_signals impl SIG_BUDGET_MASK w) ∧
      (throw_on_litmus_signal impl SIG_BUDGET signum w).2.unblocked
        = w.unblocked ++ [SIG_BUDGET_MASK]) ∧
    (signum ≠ SIG_BUDGET →
      throw_on_litmus_signal impl SIG_BUDGET signum w = (.ok (), w)) ∧
    SIG_BUDGET_MASK = 1 := by
  by_cases h : SIG_BUDGET = signum
  · subst h
    simp [throw_on_litmus_signal, unblock_litmus_signals, SIG_BUDGET_MASK]
  · have h2 : signum ≠ SIG_BUDGET := fun e => h e.symm
    simp [throw_on_litmus_signal, h, h2, SIG_BUDGET_MASK]

/-- Evaluation of C8 with `SIG_BUDGET = 64`, mask 1 blocked: signal 64 throws
after unblocking mask 1, signal 10 returns with nothing unblocked. -/
theorem throw_on_litmus_signal_contract_witness :
    ((64 : Int) = 64 ∧
      throw_on_litmus_signal sample_unblock 64 64 ⟨1, []⟩ = (.error .sigbudget, ⟨0, [1]⟩)) ∧
    ((10 : Int) ≠ 64 ∧
      throw_on_litmus_signal sample_unblock 64 10 ⟨1, []⟩ = (.ok (), ⟨1, []⟩)) :=
  ⟨⟨rfl, ((throw_on_litmus_signal_contract sample_unblock 64 64 ⟨1, []⟩).2.1 rfl).1⟩,
   ⟨by decide, (throw_on_litmus_signal_contract sample_unblock 64 10 ⟨1, []⟩).2.2.1 (by decide)⟩⟩

/-! ## Time-unit conversion macros -/

/-- C9, as stated, fails: `9223372037` and `9223372036854776` are `long long`
values, but `s2ns(9223372037)` is `-9223372036709551616`, not
`10^9 * 9223372037`, and `s2ms(9223372036854776)` is `-9223372036854775616`,
not `1000 * 9223372036854776`: the `long long` product wraps around. -/
theorem time_unit_conversions_counterexample :
    (LLONG_MIN ≤ 9223372037 ∧ 9223372037 ≤ LLONG_MAX) ∧
    s2ns 9223372037 = -9223372036709551616 ∧
    s2ns 9223372037 ≠ 1000000000 * 9223372037 ∧
    (LLONG_MIN ≤ 9223372036854776 ∧ 9223372036854776 ≤ LLONG_MAX) ∧
    s2ms 9223372036854776 = -9223372036854775616 ∧
    s2ms 9223372036854776 ≠ 1000 * 9223372036854776 := by
  refine ⟨by decide, by decide, by decide, by decide, by decide, by decide⟩

/-- C9, amended: with the products computed in signed 64-bit `long long`, each
macro is exact exactly while its product fits: `s2ms s = 1000 * s` iff
`|s| ≤ 9223372036854775`, `s2us s = 10^6 * s` iff `|s| ≤ 9223372036854`,
`s2ns s = 10^9 * s` iff `|s| ≤ 9223372036`; the conversions compose for every
`s` and `m` (`ms2us (s2ms s) = s2us s`, `ms2ns (s2ms s) = s2ns s`,
`us2ns (s2us s) = s2ns s`, `us2ns (ms2us m) = ms2ns m`); and for
`|s| ≤ 9223372036` the product `10^9 * s` lies in the signed 64-bit range, so
`s2ns s` is that product and no wrap-around occurs. -/
theorem time_unit_conversions_in_range (s m : Int) :
    (s2ms s = 1000 * s ↔ |s| ≤ 9223372036854775) ∧
    (s2us s = 1000000 * s ↔ |s| ≤ 9223372036854) ∧
    (s2ns s = 1000000000 * s ↔ |s| ≤ 9223372036) ∧
    ms2us (s2ms s) = s2us s ∧ ms2ns (s2ms s) = s2ns s ∧ us2ns (s2us s) = s2ns s ∧
    us2ns (ms2us m) = ms2ns m ∧
    (|s| ≤ 9223372036 →
      LLONG_MIN ≤ 1000000000 * s ∧ 1000000000 * s ≤ LLONG_MAX ∧
      s2ns s = 1000000000 * s ∧ s2us s = 1000000 * s ∧ s2ms s = 1000 * s) := by
  refine ⟨?_, ?_, ?_, ?_, ?_, ?_, ?_, ?_⟩
  · rw [abs_le]
    unfold s2ms wrap_ll
    omega
  · rw [abs_le]
    unfold s2us wrap_ll
    omega
  · rw [abs_le]
    unfold s2ns wrap_ll
    omega
  · unfold ms2us s2ms s2us wrap_ll
    omega
  · unfold ms2ns s2ms s2ns wrap_ll
    omega
  · unfold us2ns s2us s2ns wrap_ll
    omega
  · unfold us2ns ms2us ms2ns wrap_ll
    omega
  · intro h
    have hb := abs_le.mp h
    unfold s2ns s2us s2ms wrap_ll LLONG_MIN LLONG_MAX
    omega

/-- Evaluation of the amended C9 at the largest argument `s2ns` is exact on:
`s2ns 9223372036` is `9223372036000000000`, within the `long long` range. -/
theorem time_unit_conversions_in_range_witness :
    |(9223372036 : Int)| ≤ 9223372036 ∧
    LLONG_MIN ≤ 1000000000 * 9223372036 ∧ 1000000000 * 9223372036 ≤ LLONG_MAX ∧
    s2ns 9223372036 = 1000000000 * 9223372036 ∧
    s2us 9223372036 = 1000000 * 9223372036 ∧ s2ms 9223372036 = 1000 * 9223372036 :=
  ⟨by decide, (time_unit_conversions_in_range 9223372036 0).2.2.2.2.2.2.2 (by decide)⟩

/-! ## `LITMUS_TRY` blocks -/

/-- On the normal path of any `LITMUS_TRY` block the body runs on the program
state and the frame list afterwards is the list before with the block's frame
on top, hence never the list before: `LITMUS_TRY` pushes and no macro pops. -/
theorem litmus_try_block_stack {α : Type} (lit_env : litmus_sigjmp_t) (x : Int)
    (body handler : α → α) (t : Thread α) :
    (litmus_try_block lit_env x body handler t).1 = .body ∧
    (litmus_try_block lit_env x body handler t).2.user = body t.user ∧
    (litmus_try_block lit_env x body handler t).2.sigjmp_stack
      = lit_env :: t.sigjmp_stack ∧
    (litmus_try_block lit_env x body handler t).2.sigjmp_stack ≠ t.sigjmp_stack := by
  refine ⟨rfl, rfl, rfl, ?_⟩
  intro h
  have hlen := congrArg List.length h
  simp [litmus_try_block, litmus_try_dispatch, litmus_try_enter, push_sigjmp] at hlen

/-- The if/else-if chain of a `LITMUS_TRY` statement, by return value of
`sigsetjmp`: on `0` the body, and only the body, is applied to the program
state; on a nonzero value equal to `x` the handler, and only the handler, is
applied; on any other value neither is, and the state is unchanged.  The
chain never touches the frame list. -/
theorem litmus_try_dispatch_runs {α : Type} (ret x : Int) (body handler : α → α)
    (t : Thread α) :
    (ret = 0 → litmus_try_dispatch ret x body handler t
      = (.body, ⟨t.sigjmp_stack, body t.user⟩)) ∧
    (ret ≠ 0 → ret = x → litmus_try_dispatch ret x body handler t
      = (.catch_block, ⟨t.sigjmp_stack, handler t.user⟩)) ∧
    (ret ≠ 0 → ret ≠ x → litmus_try_dispatch ret x body handler t = (.neither, t)) := by
  unfold litmus_try_dispatch
  refine ⟨?_, ?_, ?_⟩
  · intro h0
    simp [h0]
  · intro h0 hx
    subst hx
    simp [h0]
  · intro h0 hx
    simp [h0, hx]

/-- C10: the block `LITMUS_TRY { u = u + 1; } LITMUS_CATCH(5) { u = u + 100; }
END_LITMUS_TRY`, run without a signal (`sigsetjmp` returns `0`).  Entered with
an empty frame list and `u = 0`, the body runs once and the handler does not
(`u = 1`), and the frame list afterwards is `[frame 1]`, not the empty list
it was before; entered with the list `[frame 7]`, the list afterwards is
`[frame 1, frame 7]`.  The frame the block pushed is never popped, so the
block is not stack-neutral; one `pop_sigjmp` would restore the list. -/
theorem litmus_try_block_leaves_frame :
    (litmus_try_block ⟨1⟩ 5 (fun u => u + 1) (fun u => u + 100)
        (⟨[], 0⟩ : Thread Nat)).1 = .body ∧
    (litmus_try_block ⟨1⟩ 5 (fun u => u + 1) (fun u => u + 100)
        (⟨[], 0⟩ : Thread Nat)).2.user = 1 ∧
    (litmus_try_block ⟨1⟩ 5 (fun u => u + 1) (fun u => u + 100)
        (⟨[], 0⟩ : Thread Nat)).2.sigjmp_stack = [⟨1⟩] ∧
    (litmus_try_block ⟨1⟩ 5 (fun u => u + 1) (fun u => u + 100)
        (⟨[], 0⟩ : Thread Nat)).2.sigjmp_stack ≠ (⟨[], 0⟩ : Thread Nat).sigjmp_stack ∧
    (litmus_try_block ⟨1⟩ 5 (fun u => u + 1) (fun u => u + 100)
        (⟨[⟨7⟩], 0⟩ : Thread Nat)).2.sigjmp_stack = [⟨1⟩, ⟨7⟩] ∧
    pop_sigjmp (litmus_try_block ⟨1⟩ 5 (fun u => u + 1) (fun u => u + 100)
        (⟨[⟨7⟩], 0⟩ : Thread Nat)).2.sigjmp_stack = (some ⟨1⟩, [⟨7⟩]) := by
  refine ⟨rfl, rfl, rfl, ?_, rfl, rfl⟩
  decide

/-! ## GPU token-lock layout validation -/

/-- The parameter check accepts exactly the configurations with `rho > 0`,
`num_gpus > 0` and `max_in_fifos ≤ max_fifo_len * rho` or both bounds
"unlimited". -/
theorem gpusync_accepted_iff (U : ikglp_sentinels)
    (num_gpus rho max_in_fifos max_fifo_len : Nat) :
    gpusync_accepted U num_gpus rho max_in_fifos max_fifo_len = true ↔
      0 < rho ∧ 0 < num_gpus ∧
      (max_in_fifos ≤ max_fifo_len * rho ∨
        (max_in_fifos = U.IKGLP_UNLIMITED_IN_FIFOS ∧
          max_fifo_len = U.IKGLP_UNLIMITED_FIFO_LEN)) := by
  unfold gpusync_accepted gpusync_token_lock_check
  by_cases hr : rho = 0
  · simp [hr]
  · by_cases hg : num_gpus = 0
    · simp [hr, hg]
    · have hr1 : 0 < rho := Nat.pos_of_ne_zero hr
      have hg1 : 0 < num_gpus := Nat.pos_of_ne_zero hg
      by_cases hu : max_in_fifos = U.IKGLP_UNLIMITED_IN_FIFOS ∧
          max_fifo_len = U.IKGLP_UNLIMITED_FIFO_LEN
      · simp [hr, hg, hu, hr1, hg1]
      · by_cases hb : max_in_fifos > max_fifo_len * rho
        · have hb2 : ¬ max_in_fifos ≤ max_fifo_len * rho := Nat.not_le.mpr hb
          simp [hr, hg, hu, hb, hb2]
        · have hb2 : max_in_fifos ≤ max_fifo_len * rho := Nat.not_lt.mp hb
          simp [hr, hg, hu, hb, hb2, hr1, hg1]

/-- C2: the parameter check rejects every configuration with `rho = 0`, every
configuration with `num_gpus = 0`, and every configuration with
`max_in_fifos > max_fifo_len * rho` unless `max_in_fifos` and `max_fifo_len`
are both their "unlimited" sentinels; it accepts in every other case.  In
particular `(max_in_fifos, max_fifo_len, rho) = (5, 2, 2)` is rejected (5 and 2
not being the two sentinels), `(4, 2, 2)` is accepted for `num_gpus > 0`, and
both bounds "unlimited" is accepted for every `rho > 0` and `num_gpus > 0`. -/
theorem gpusync_layout_validation (U : ikglp_sentinels)
    (num_gpus rho max_in_fifos max_fifo_len : Nat) :
    (rho = 0 → gpusync_accepted U num_gpus rho max_in_fifos max_fifo_len = false) ∧
    (num_gpus = 0 → gpusync_accepted U num_gpus rho max_in_fifos max_fifo_len = false) ∧
    (max_in_fifos > max_fifo_len * rho →
      ¬ (max_in_fifos = U.IKGLP_UNLIMITED_IN_FIFOS ∧
          max_fifo_len = U.IKGLP_UNLIMITED_FIFO_LEN) →
      gpusync_accepted U num_gpus rho max_in_fifos max_fifo_len = false) ∧
    (rho ≠ 0 → num_gpus ≠ 0 →
      ¬ (max_in_fifos > max_fifo_len * rho ∧
          ¬ (max_in_fifos = U.IKGLP_UNLIMITED_IN_FIFOS ∧
              max_fifo_len = U.IKGLP_UNLIMITED_FIFO_LEN)) →
      gpusync_accepted U num_gpus rho max_in_fifos max_fifo_len = true) ∧
    (¬ (5 = U.IKGLP_UNLIMITED_IN_FIFOS ∧ 2 = U.IKGLP_UNLIMITED_FIFO_LEN) →
      gpusync_accepted U num_gpus 2 5 2 = false) ∧
    (0 < num_gpus → gpusync_accepted U num_gpus 2 4 2 = true) ∧
    (0 < rho → 0 < num_gpus →
      gpusync_accepted U num_gpus rho
        U.IKGLP_UNLIMITED_IN_FIFOS U.IKGLP_UNLIMITED_FIFO_LEN = true) := by
  refine ⟨?_, ?_, ?_, ?_, ?_, ?_, ?_⟩
  · intro h
    rw [Bool.eq_false_iff, Ne, gpusync_accepted_iff]
    omega
  · intro h
    rw [Bool.eq_false_iff, Ne, gpusync_accepted_iff]
    omega
  · intro h hu
    rw [Bool.eq_false_iff, Ne, gpusync_accepted_iff]
    rintro ⟨-, -, hle | hs⟩
    · omega
    · exact hu hs
  · intro hr hg h
    rw [gpusync_accepted_iff]
    refine ⟨Nat.pos_of_ne_zero hr, Nat.pos_of_ne_zero hg, ?_⟩
    by_cases hs : max_in_fifos = U.IKGLP_UNLIMITED_IN_FIFOS ∧
        max_fifo_len = U.IKGLP_UNLIMITED_FIFO_LEN
    · exact Or.inr hs
    · left
      by_contra hle
      exact h ⟨Nat.not_le.mp hle, hs⟩
  · intro hu
    rw [Bool.eq_false_iff, Ne, gpusync_accepted_iff]
    rintro ⟨-, -, hle | hs⟩
    · omega
    · exact hu hs
  · intro hg
    rw [gpusync_accepted_iff]
    exact ⟨by omega, hg, Or.inl (by omega)⟩
  · intro hr hg
    rw [gpusync_accepted_iff]
    exact ⟨hr, hg, Or.inr ⟨rfl, rfl⟩⟩

/-- Evaluation of C2 with both sentinels `4294967295`: `rho = 0` and
`num_gpus = 0` are rejected, `max_in_fifos = 3 > 2 * 1` is rejected and
`max_in_fifos = 2 ≤ 2 * 1` accepted, `(5, 2, 2)` is rejected, `(4, 2, 2)` is
accepted and both bounds "unlimited" is accepted with `rho = 3`,
`num_gpus = 2`. -/
theorem gpusync_layout_validation_witness :
    gpusync_accepted sample_sentinels 1 0 1 1 = false ∧
    gpusync_accepted sample_sentinels 0 1 1 1 = false ∧
    gpusync_accepted sample_sentinels 1 1 3 2 = false ∧
    gpusync_accepted sample_sentinels 1 1 2 2 = true ∧
    gpusync_accepted sample_sentinels 1 2 5 2 = false ∧
    gpusync_accepted sample_sentinels 1 2 4 2 = true ∧
    gpusync_accepted sample_sentinels 2 3 4294967295 4294967295 = true :=
  ⟨(gpusync_layout_validation sample_sentinels 1 0 1 1).1 rfl,
   (gpusync_layout_validation sample_sentinels 0 1 1 1).2.1 rfl,
   (gpusync_layout_validation sample_sentinels 1 1 3 2).2.2.1 (by decide) (by decide),
   (gpusync_layout_validation sample_sentinels 1 1 2 2).2.2.2.1 (by decide) (by decide)
     (by decide),
   (gpusync_layout_validation sample_sentinels 1 0 0 0).2.2.2.2.1 (by decide),
   (gpusync_layout_validation sample_sentinels 1 0 0 0).2.2.2.2.2.1 (by decide),
   (gpusync_layout_validation sample_sentinels 2 3 0 0).2.2.2.2.2.2 (by decide) (by decide)⟩

/-! ## Protocol registry -/

/-- C6: the registry table lists every protocol of the enumeration, in order,
under its canonical name; for every protocol both lookups find it and are
inverse to each other (name to identifier to name gives the name back,
identifier to name to identifier gives the identifier back); the lookup by
name reports "not found" exactly for the names that are no protocol's
canonical name, and the lookup by identifier exactly for the integers outside
0..13. -/
theorem protocol_registry_round_trip :
    protocol_table = obj_type_t.all.map (fun t => (t.name, t)) ∧
    (∀ t : obj_type_t,
      lock_protocol_for_name t.name = some t.toInt ∧
      name_for_lock_protocol t.toInt = some t.name ∧
      (lock_protocol_for_name t.name).bind name_for_lock_protocol = some t.name ∧
      (name_for_lock_protocol t.toInt).bind lock_protocol_for_name = some t.toInt) ∧
    (∀ name : String,
      lock_protocol_for_name name = none ↔ ∀ t : obj_type_t, t.name ≠ name) ∧
    (∀ id : Int, name_for_lock_protocol id = none ↔ (id < 0 ∨ 13 < id)) := by
  have hfwd : ∀ t : obj_type_t, lock_protocol_for_name t.name = some t.toInt := by
    intro t
    cases t <;> simp [lock_protocol_for_name, protocol_table, obj_type_t.name, obj_type_t.toInt]
  have hbwd : ∀ t : obj_type_t, name_for_lock_protocol t.toInt = some t.name := by
    intro t
    cases t <;> simp [name_for_lock_protocol, protocol_table, obj_type_t.name, obj_type_t.toInt]
  refine ⟨rfl, ?_, ?_, ?_⟩
  · intro t
    refine ⟨hfwd t, hbwd t, ?_, ?_⟩
    · rw [hfwd t]
      exact hbwd t
    · rw [hbwd t]
      exact hfwd t
  · intro name
    constructor
    · intro hnone t ht
      rw [← ht, hfwd t] at hnone
      exact Option.noConfusion hnone
    · intro h
      have h0 := h .FMLP_SEM
      have h1 := h .SRP_SEM
      have h2 := h .MPCP_SEM
      have h3 := h .MPCP_VS_SEM
      have h4 := h .DPCP_SEM
      have h5 := h .PCP_SEM
      have h6 := h .FIFO_MUTEX
      have h7 := h .IKGLP_SEM
      have h8 := h .KFMLP_SEM
      have h9 := h .IKGLP_SIMPLE_GPU_AFF_OBS
      have h10 := h .IKGLP_GPU_AFF_OBS
      have h11 := h .KFMLP_SIMPLE_GPU_AFF_OBS
      have h12 := h .KFMLP_GPU_AFF_OBS
      have h13 := h .PRIOQ_MUTEX
      simp only [obj_type_t.name] at h0 h1 h2 h3 h4 h5 h6 h7 h8 h9 h10 h11 h12 h13
      simp [lock_protocol_for_name, protocol_table, List.find?, h0, h1, h2, h3, h4, h5, h6,
        h7, h8, h9, h10, h11, h12, h13]
  · intro id
    constructor
    · intro hnone
      by_contra hin
      have hlo : 0 ≤ id := by omega
      have hhi : id ≤ 13 := by omega
      obtain ⟨n, rfl⟩ := Int.eq_ofNat_of_zero_le hlo
      have hn : n ≤ 13 := by omega
      interval_cases n
      · exact Option.noConfusion ((hbwd .FMLP_SEM).symm.trans hnone)
      · exact Option.noConfusion ((hbwd .SRP_SEM).symm.trans hnone)
      · exact Option.noConfusion ((hbwd .MPCP_SEM).symm.trans hnone)
      · exact Option.noConfusion ((hbwd .MPCP_VS_SEM).symm.trans hnone)
      · exact Option.noConfusion ((hbwd .DPCP_SEM).symm.trans hnone)
      · exact Option.noConfusion ((hbwd .PCP_SEM).symm.trans hnone)
      · exact Option.noConfusion ((hbwd .FIFO_MUTEX).symm.trans hnone)
      · exact Option.noConfusion ((hbwd .IKGLP_SEM).symm.trans hnone)
      · exact Option.noConfusion ((hbwd .KFMLP_SEM).symm.trans hnone)
      · exact Option.noConfusion ((hbwd .IKGLP_SIMPLE_GPU_AFF_OBS).symm.trans hnone)
      · exact Option.noConfusion ((hbwd .IKGLP_GPU_AFF_OBS).symm.trans hnone)
      · exact Option.noConfusion ((hbwd .KFMLP_SIMPLE_GPU_AFF_OBS).symm.trans hnone)
      · exact Option.noConfusion ((hbwd .KFMLP_GPU_AFF_OBS).symm.trans hnone)
      · exact Option.noConfusion ((hbwd .PRIOQ_MUTEX).symm.trans hnone)
    · intro hout
      have e0 : ¬ (0 : Int) = id := by omega
      have e1 : ¬ (1 : Int) = id := by omega
      have e2 : ¬ (2 : Int) = id := by omega
      have e3 : ¬ (3 : Int) = id := by omega
      have e4 : ¬ (4 : Int) = id := by omega
      have e5 : ¬ (5 : Int) = id := by omega
      have e6 : ¬ (6 : Int) = id := by omega
      have e7 : ¬ (7 : Int) = id := by omega
      have e8 : ¬ (8 : Int) = id := by omega
      have e9 : ¬ (9 : Int) = id := by omega
      have e10 : ¬ (10 : Int) = id := by omega
      have e11 : ¬ (11 : Int) = id := by omega
      have e12 : ¬ (12 : Int) = id := by omega
      have e13 : ¬ (13 : Int) = id := by omega
      simp [name_for_lock_protocol, protocol_table, List.find?, obj_type_t.toInt,
        e0, e1, e2, e3, e4, e5, e6, e7, e8, e9, e10, e11, e12, e13]

end Litmus
